import Mathlib

/-!
Verification of the homework-status polling bot (src/homework.py together
with src/exceptions.py) against its natural-language specification.

The Python program is shallowly embedded:
  - parsed JSON response bodies become the inductive type Json;
  - Python dictionary/sequence primitives (truthiness, the in operator,
    subscription, dict.get) become total Lean functions returning
    Except PyError where the Python operation can raise;
  - the exception classes that the program raises or catches become the
    constructors of PyError (ApiError is declared only via the import in
    homework.py; it is used as a plain Exception subclass and modelled so);
  - the network and the Telegram transport are external inputs of each
    loop cycle; sends, log lines and the sleep become an Event trace;
  - one iteration of the while-True body of main, including its
    try/except/finally, is the function cycle; run folds it over a list
    of per-cycle inputs.
-/

namespace HomeworkBot

/-- A parsed JSON value, the shape of response.json() in homework.py. -/
inductive Json where
  | null
  | str (s : String)
  | int (n : Int)
  | bool (b : Bool)
  | list (xs : List Json)
  | dict (kvs : List (String × Json))

/-- Python truthiness of a JSON value: None, empty string, 0, False,
empty list and empty dict are falsy. -/
def Json.truthy : Json → Bool
  | .null => false
  | .str s => !s.isEmpty
  | .int n => n != 0
  | .bool b => b
  | .list xs => !xs.isEmpty
  | .dict kvs => !kvs.isEmpty

mutual

/-- Python repr() of a JSON value. -/
def Json.pyRepr : Json → String
  | .null => "None"
  | .str s => "\x27" ++ s ++ "\x27"
  | .int n => toString n
  | .bool true => "True"
  | .bool false => "False"
  | .list xs => "[" ++ Json.pyReprItems xs ++ "]"
  | .dict kvs => "\x7b" ++ Json.pyReprPairs kvs ++ "\x7d"

/-- Comma-separated repr of list elements. -/
def Json.pyReprItems : List Json → String
  | [] => ""
  | [x] => Json.pyRepr x
  | x :: y :: rest => Json.pyRepr x ++ ", " ++ Json.pyReprItems (y :: rest)

/-- Comma-separated repr of dict entries. -/
def Json.pyReprPairs : List (String × Json) → String
  | [] => ""
  | [(k, v)] => "\x27" ++ k ++ "\x27: " ++ Json.pyRepr v
  | (k, v) :: p :: rest =>
    "\x27" ++ k ++ "\x27: " ++ Json.pyRepr v ++ ", " ++ Json.pyReprPairs (p :: rest)

end

/-- Python str() of a JSON value as an f-string would format it: a str
formats as its own text, every other value formats as its repr. -/
def Json.pyStr : Json → String
  | .str s => s
  | j => j.pyRepr

/-- Python type(x) rendering, used by the f-strings in check_response. -/
def Json.pyType : Json → String
  | .null => "<class \x27NoneType\x27>"
  | .str _ => "<class \x27str\x27>"
  | .int _ => "<class \x27int\x27>"
  | .bool _ => "<class \x27bool\x27>"
  | .list _ => "<class \x27list\x27>"
  | .dict _ => "<class \x27dict\x27>"

/-- Is the value a dict (Python isinstance(x, dict))? -/
def Json.isDict : Json → Bool
  | .dict _ => true
  | _ => false

/-- Is the value a list (Python isinstance(x, list))? -/
def Json.isList : Json → Bool
  | .list _ => true
  | _ => false

/-- The exceptions raised or caught by homework.py. Each carries the
message text that str(e) would produce (for keyError, the key: Python
renders str(KeyError(k)) with extra quotes, handled in pyStrErr). -/
inductive PyError where
  | apiError (msg : String)
  | authenticationError (msg : String)
  | httpError (msg : String)
  | keyError (msg : String)
  | typeError (msg : String)
  | valueError (msg : String)
  | attributeError (msg : String)
  | indexError (msg : String)
deriving DecidableEq, Repr

/-- Python str(e) of an exception: KeyError renders its argument inside
single quotes, every other class used here renders the bare message. -/
def pyStrErr : PyError → String
  | .keyError m => "\x27" ++ m ++ "\x27"
  | .apiError m => m
  | .authenticationError m => m
  | .httpError m => m
  | .typeError m => m
  | .valueError m => m
  | .attributeError m => m
  | .indexError m => m

/-- Membership of the exception in the tuple caught by the first except
clause of main: (ApiError, AuthenticationError, HTTPError, KeyError,
RequestException, TypeError, ValueError). AttributeError and IndexError
are not in the tuple and fall to the generic except Exception clause. -/
def isCaughtTyped : PyError → Bool
  | .apiError _ => true
  | .authenticationError _ => true
  | .httpError _ => true
  | .keyError _ => true
  | .typeError _ => true
  | .valueError _ => true
  | .attributeError _ => false
  | .indexError _ => false

/-- Python d.get(k) on a JSON value: returns None for a missing key,
raises AttributeError when the receiver is not a dict. -/
def Json.pyGet (j : Json) (k : String) : Except PyError Json :=
  match j with
  | .dict kvs => .ok ((kvs.lookup k).getD .null)
  | _ => .error (.attributeError ("\x27" ++ j.pyType ++ "\x27 object has no attribute \x27get\x27"))

/-- Python d.get(k, default) on a JSON value. -/
def Json.pyGetD (j : Json) (k : String) (d : Json) : Except PyError Json :=
  match j with
  | .dict kvs => .ok ((kvs.lookup k).getD d)
  | _ => .error (.attributeError ("\x27" ++ j.pyType ++ "\x27 object has no attribute \x27get\x27"))

/-- Python d[k] with a string key: KeyError for a dict missing the key,
TypeError when the receiver is not a dict. -/
def Json.pySub (j : Json) (k : String) : Except PyError Json :=
  match j with
  | .dict kvs =>
    match kvs.lookup k with
    | some v => .ok v
    | none => .error (.keyError k)
  | .str _ => .error (.typeError "string indices must be integers")
  | .list _ => .error (.typeError "list indices must be integers or slices, not str")
  | _ => .error (.typeError ("\x27" ++ j.pyType ++ "\x27 object is not subscriptable"))

/-- Python xs[0]: IndexError on an empty list, TypeError on a
non-sequence. -/
def Json.pyIndex0 : Json → Except PyError Json
  | .list [] => .error (.indexError "list index out of range")
  | .list (x :: _) => .ok x
  | .str s =>
    if s.isEmpty then .error (.indexError "string index out of range")
    else .ok (.str (String.singleton (s.get 0)))
  | j => .error (.typeError ("\x27" ++ j.pyType ++ "\x27 object is not subscriptable"))

/-- Python value == some string literal: true exactly when the value is
that string (no JSON value other than a str compares equal to a str). -/
def Json.eqStr : Json → String → Bool
  | .str s, t => s == t
  | _, _ => false

/-- Substring containment for the Python expression k in s on strings. -/
def strContainsSub (s k : String) : Bool :=
  k.isEmpty || (s.splitOn k).length ≥ 2

/-- Python k in j for a string literal k: key lookup on a dict, element
equality on a list, substring on a string, TypeError otherwise. -/
def Json.pyContainsStr (j : Json) (k : String) : Except PyError Bool :=
  match j with
  | .dict kvs => .ok (kvs.lookup k).isSome
  | .list xs => .ok (xs.any (fun x => x.eqStr k))
  | .str s => .ok (strContainsSub s k)
  | _ => .error (.typeError ("argument of type \x27" ++ j.pyType ++ "\x27 is not iterable"))

/-- RETRY_PERIOD = 600, the fixed sleep between cycles (seconds). -/
def RETRY_PERIOD : Nat := 600

/-- The single hardcoded endpoint URL. -/
def ENDPOINT : String := "https://practicum.yandex.ru/api/user_api/homework_statuses/"

/-- HOMEWORK_VERDICTS: the fixed verdict-code table. -/
def HOMEWORK_VERDICTS : List (String × String) :=
  [("approved", "Работа проверена: ревьюеру всё понравилось. Ура!"),
   ("reviewing", "Работа взята на проверку ревьюером."),
   ("rejected", "Работа проверена: у ревьюера есть замечания.")]

/-- STATUS_CHANGE_MESSAGE applied to its two format arguments. -/
def STATUS_CHANGE_MESSAGE (homework_name status : String) : String :=
  "Изменился статус проверки работы \"" ++ homework_name ++ "\". " ++ status

/-- BOT_MESSAGE applied to its format argument. -/
def BOT_MESSAGE (message : String) : String :=
  "Бот отправил сообщение \"" ++ message ++ "\""

/-- SEND_MESSAGE_ERROR applied to its format arguments. -/
def SEND_MESSAGE_ERROR (message error : String) : String :=
  "Сбой при отправке сообщения в Telegram \"" ++ message ++ "\" : " ++ error ++ "."

/-- str(HEADERS), the repr of the Authorization-header dict built from
PRACTICUM_TOKEN, as the f-string in API_ERROR_MESSAGE renders it. -/
def headersRepr (token : String) : String :=
  "\x7b\x27Authorization\x27: \x27OAuth " ++ token ++ "\x27\x7d"

/-- API_ERROR_MESSAGE applied to its format arguments (the headers slot
is filled from PRACTICUM_TOKEN, the timestamp slot from the from_date
parameter). -/
def API_ERROR_MESSAGE (token error status_code : String) (timestamp : Json) : String :=
  "Сбой в работе программы: " ++ error ++ ". Эндпоинт: " ++ ENDPOINT
    ++ ". Код ответа API: " ++ status_code ++ ". Headers: " ++ headersRepr token
    ++ ", params: \"from_date\": " ++ timestamp.pyStr ++ "."

/-- The observable actions of the program: outbound Telegram send
attempts (ok = the transport accepted it), log lines by severity, and
the fixed sleep at the end of a cycle. -/
inductive Event where
  | sendAttempt (text : String) (ok : Bool)
  | logDebug (msg : String)
  | logError (msg : String)
  | logCritical (msg : String)
  | sleep (seconds : Nat)
deriving DecidableEq, Repr

/-- The three environment values read at import time. None models an
unset variable; an empty string is also falsy for check_tokens. -/
structure Credentials where
  practicum_token : Option String
  telegram_token : Option String
  telegram_chat_id : Option String

/-- Python not value for an os.getenv result: None or empty is falsy. -/
def falsyStr : Option String → Bool
  | none => true
  | some s => s.isEmpty

/-- The (name, value) pairs iterated by check_tokens, in source order. -/
def tokenPairs (c : Credentials) : List (String × Option String) :=
  [("PRACTICUM_TOKEN", c.practicum_token),
   ("TELEGRAM_TOKEN", c.telegram_token),
   ("TELEGRAM_CHAT_ID", c.telegram_chat_id)]

/-- check_tokens: logs a critical line per falsy variable; if any was
falsy, logs the stop line and raises ValueError. -/
def check_tokens (c : Credentials) : List Event × Except PyError Unit :=
  let missingLogs := (tokenPairs c).filterMap (fun tv =>
    if falsyStr tv.2 then
      some (Event.logCritical
        ("Отсутствует обязательная переменная окружения: " ++ tv.1 ++ "."))
    else none)
  if missingLogs.isEmpty then ([], .ok ())
  else (missingLogs ++ [Event.logCritical "Программа принудительно остановлена."],
        .error (.valueError "Отсутствуют обязательные переменные окружения"))

/-- The mutable loop state of main: last_message and timestamp. The
timestamp is a Json value because the code overwrites it with whatever
response.get(current_date, timestamp) returns. -/
structure BotState where
  last_message : Option String
  timestamp : Json

/-- How the process leaves the startup prefix of main: it either enters
the polling loop, or terminates. An uncaught exception terminates
CPython with a traceback and a nonzero (error) exit status; cleanExit
models a termination with a non-error exit status (for instance
sys.exit()), which this source never performs. -/
inductive StartupOutcome where
  | enterLoop (st : BotState)
  | uncaughtException (e : PyError)
  | cleanExit

/-- The startup prefix of main: last_message = None, check_tokens, bot
construction, timestamp = int(time.time()); the ValueError from
check_tokens propagates out of main uncaught. -/
def startup (c : Credentials) (now : Int) : List Event × StartupOutcome :=
  match check_tokens c with
  | (logs, .error e) => (logs, .uncaughtException e)
  | (logs, .ok _) =>
    (logs, .enterLoop { last_message := none, timestamp := Json.int now })

/-- send_message: attempts one Telegram send; on success logs
BOT_MESSAGE at debug, on any transport exception logs SEND_MESSAGE_ERROR
and swallows the exception (it never propagates). sendFail is the
external transport outcome: none = accepted, some e = the exception
text raised by bot.send_message. -/
def send_message (message : String) (sendFail : Option String) : List Event :=
  match sendFail with
  | none => [Event.sendAttempt message true, Event.logDebug (BOT_MESSAGE message)]
  | some err =>
    [Event.sendAttempt message false,
     Event.logError (SEND_MESSAGE_ERROR message err)]

/-- The outcome of the outbound HTTP GET, an external input of each
cycle: a requests-level transport failure (RequestException with the
given text) or a response with a status code and parsed JSON body. -/
inductive HttpResult where
  | transportError (msg : String)
  | response (statusCode : Nat) (body : Json)

/-- get_api_answer: wraps a RequestException into ApiError; raises
HTTPError on a non-200 status; then, if the body has a truthy code or
error entry, raises TypeError / AuthenticationError / ValueError
depending on the code value (the UnknownError branch subscripts
body[error][error], the not_authenticated branch subscripts
body[message]); otherwise returns the body unchanged. -/
def get_api_answer (token : String) (timestamp : Json) (net : HttpResult) :
    Except PyError Json :=
  match net with
  | .transportError re =>
    .error (.apiError (API_ERROR_MESSAGE token re "unknown" timestamp))
  | .response status body =>
    if status ≠ 200 then
      .error (.httpError
        (API_ERROR_MESSAGE token "HTTPError" (toString status) timestamp))
    else
      match body.pyGet "code", body.pyGet "error" with
      | .error e, _ => .error e
      | .ok _, .error e => .error e
      | .ok code, .ok err =>
        if code.truthy || err.truthy then
          if code.eqStr "UnknownError" then
            match body.pySub "error" with
            | .error e => .error e
            | .ok e1 =>
              match e1.pySub "error" with
              | .error e => .error e
              | .ok e2 =>
                .error (.typeError
                  (API_ERROR_MESSAGE token e2.pyStr (toString status) timestamp))
          else if code.eqStr "not_authenticated" then
            match body.pySub "message" with
            | .error e => .error e
            | .ok m =>
              .error (.authenticationError
                (API_ERROR_MESSAGE token m.pyStr (toString status) timestamp))
          else
            .error (.valueError
              (API_ERROR_MESSAGE token err.pyStr (toString status) timestamp))
        else
          .ok body

/-- check_response: TypeError when the body is not a dict, KeyError when
the homeworks key is absent, TypeError when its value is not a list. -/
def check_response (response : Json) : Except PyError Unit :=
  match response with
  | .dict kvs =>
    match kvs.lookup "homeworks" with
    | none =>
      .error (.keyError "Отсутствуют ожидаемые ключи в ответе API: \"homeworks\"")
    | some hw =>
      if hw.isList then .ok ()
      else .error (.typeError ("Ожидался список, получен: " ++ hw.pyType))
  | _ => .error (.typeError ("Ожидался словарь, получен " ++ response.pyType))

/-- Python v in HOMEWORK_VERDICTS for an arbitrary JSON value: only a
str can match a key; hashable non-strings are simply absent; an
unhashable value raises TypeError. -/
def verdictsContain (v : Json) : Except PyError Bool :=
  match v with
  | .str s => .ok (HOMEWORK_VERDICTS.lookup s).isSome
  | .int _ => .ok false
  | .bool _ => .ok false
  | .null => .ok false
  | .list _ => .error (.typeError "unhashable type: \x27list\x27")
  | .dict _ => .error (.typeError "unhashable type: \x27dict\x27")

/-- Python HOMEWORK_VERDICTS[v]: lookup for a str key (KeyError when
absent), KeyError for other hashable values, TypeError for unhashable
ones. -/
def verdictsSub (v : Json) : Except PyError String :=
  match v with
  | .str s =>
    match HOMEWORK_VERDICTS.lookup s with
    | some t => .ok t
    | none => .error (.keyError s)
  | .int n => .error (.keyError (toString n))
  | .bool b => .error (.keyError (if b then "True" else "False"))
  | .null => .error (.keyError "None")
  | .list _ => .error (.typeError "unhashable type: \x27list\x27")
  | .dict _ => .error (.typeError "unhashable type: \x27dict\x27")

/-- parse_status: KeyError when status or homework_name is absent,
ValueError when the status value is outside HOMEWORK_VERDICTS, else the
formatted STATUS_CHANGE_MESSAGE. -/
def parse_status (homework : Json) : Except PyError String :=
  match homework.pyContainsStr "status" with
  | .error e => .error e
  | .ok hasStatus =>
    if !hasStatus then .error (.keyError "Нет ожидаемого ключа: status")
    else
      match homework.pyContainsStr "homework_name" with
      | .error e => .error e
      | .ok hasName =>
        if !hasName then .error (.keyError "Нет ожидаемого ключа: homework_name")
        else
          match homework.pySub "status" with
          | .error e => .error e
          | .ok sv =>
            match verdictsContain sv with
            | .error e => .error e
            | .ok inVerdicts =>
              if !inVerdicts then
                .error (.valueError ("Получен неожиданный статус: " ++ sv.pyStr))
              else
                match homework.pySub "homework_name" with
                | .error e => .error e
                | .ok nameV =>
                  match homework.pySub "status" with
                  | .error e => .error e
                  | .ok sv2 =>
                    match verdictsSub sv2 with
                    | .error e => .error e
                    | .ok verdict => .ok (STATUS_CHANGE_MESSAGE nameV.pyStr verdict)

/-- The external inputs of one loop cycle: the HTTP outcome of this
cycle's get_api_answer call, and the Telegram transport outcome used if
a send is attempted in this cycle (none = the send succeeds). -/
structure CycleInput where
  net : HttpResult
  sendFail : Option String

/-- The try block of one iteration of the while-True loop in main:
get_api_answer, check_response, then — when response.get(homeworks) is
truthy — parse_status on response[homeworks][0] and, if the message
differs from last_message, send_message followed by the last_message
and timestamp updates; an empty homeworks value only logs a debug line.
Returns the updated state and the events of the try block, or the
exception that escaped it. -/
def tryBody (token : String) (inp : CycleInput) (st : BotState) :
    Except PyError (BotState × List Event) :=
  match get_api_answer token st.timestamp inp.net with
  | .error e => .error e
  | .ok response =>
    match check_response response with
    | .error e => .error e
    | .ok _ =>
      match response.pyGet "homeworks" with
      | .error e => .error e
      | .ok hw =>
        if hw.truthy then
          match response.pySub "homeworks" with
          | .error e => .error e
          | .ok hws =>
            match hws.pyIndex0 with
            | .error e => .error e
            | .ok first =>
              match parse_status first with
              | .error e => .error e
              | .ok message =>
                if st.last_message ≠ some message then
                  match response.pyGetD "current_date" st.timestamp with
                  | .error e => .error e
                  | .ok newTs =>
                    .ok ({ last_message := some message, timestamp := newTs },
                         send_message message inp.sendFail)
                else
                  .ok (st, [])
        else
          .ok (st, [Event.logDebug "Отсутствие в ответе новых статусов."])

/-- One full iteration of the loop in main, try/except/finally included:
an exception from the try block is logged and, unless its str equals
last_message, forwarded to send_message — with the prefix Сбой в работе
программы: added only in the generic except-Exception branch — and
last_message and timestamp are left unchanged in both except branches;
the finally clause appends the fixed sleep in every case. -/
def cycle (token : String) (inp : CycleInput) (st : BotState) :
    BotState × List Event :=
  match tryBody token inp st with
  | .ok (st2, evs) => (st2, evs ++ [Event.sleep RETRY_PERIOD])
  | .error e =>
    if isCaughtTyped e then
      (st, Event.logError (pyStrErr e) ::
        (if st.last_message ≠ some (pyStrErr e) then
          send_message (pyStrErr e) inp.sendFail
        else [])
        ++ [Event.sleep RETRY_PERIOD])
    else
      (st, Event.logError ("Сбой в работе программы: " ++ pyStrErr e) ::
        (if st.last_message ≠ some ("Сбой в работе программы: " ++ pyStrErr e) then
          send_message ("Сбой в работе программы: " ++ pyStrErr e) inp.sendFail
        else [])
        ++ [Event.sleep RETRY_PERIOD])

/-- Runs the loop for one cycle per input, threading the state and
concatenating the event traces. -/
def run (token : String) (st : BotState) : List CycleInput → BotState × List Event
  | [] => (st, [])
  | inp :: rest =>
    let (st2, evs) := cycle token inp st
    let (st3, evs2) := run token st2 rest
    (st3, evs ++ evs2)

/-- The number of outbound send attempts carrying the given text. -/
def countSends (evs : List Event) (text : String) : Nat :=
  (evs.filter (fun ev =>
    match ev with
    | .sendAttempt t _ => t == text
    | _ => false)).length

/-- The number of outbound send attempts of any text. -/
def countAllSends (evs : List Event) : Nat :=
  (evs.filter (fun ev =>
    match ev with
    | .sendAttempt _ _ => true
    | _ => false)).length

/-- The number of sleep events. -/
def countSleeps (evs : List Event) : Nat :=
  (evs.filter (fun ev =>
    match ev with
    | .sleep _ => true
    | _ => false)).length

/-! Helper lemmas shared by several claims. -/

theorem countAllSends_append (a b : List Event) :
    countAllSends (a ++ b) = countAllSends a + countAllSends b := by
  simp [countAllSends, List.filter_append]

theorem countSleeps_append (a b : List Event) :
    countSleeps (a ++ b) = countSleeps a + countSleeps b := by
  simp [countSleeps, List.filter_append]

theorem countAllSends_send_message (m : String) (f : Option String) :
    countAllSends (send_message m f) = 1 := by
  cases f <;> rfl

theorem countSleeps_send_message (m : String) (f : Option String) :
    countSleeps (send_message m f) = 0 := by
  cases f <;> rfl

theorem get_api_answer_ok_inv {token : String} {ts : Json} {net : HttpResult}
    {resp : Json} (h : get_api_answer token ts net = .ok resp) :
    ∃ kvs, net = .response 200 (.dict kvs) ∧ resp = .dict kvs := by
  match net with
  | .transportError re => simp [get_api_answer] at h
  | .response status body =>
    simp only [get_api_answer] at h
    by_cases hs : status = 200
    · subst hs
      rw [if_neg (by simp)] at h
      match body with
      | .null | .str _ | .int _ | .bool _ | .list _ => simp [Json.pyGet] at h
      | .dict kvs =>
        refine ⟨kvs, rfl, ?_⟩
        simp only [Json.pyGet] at h
        split at h
        · exfalso
          split at h <;> (try split at h) <;> (try split at h) <;> simp_all
        · simpa using h.symm
    · rw [if_pos hs] at h
      simp at h

/-- Claim C7: parse_status on the record with status approved and
homework_name X returns exactly the announced Russian string; a record
lacking status or lacking homework_name fails with a KeyError (the
MissingField error of the spec); a record with both keys whose status
value is outside HOMEWORK_VERDICTS fails with a ValueError (the
UnknownVerdict error of the spec) carrying that status. -/
theorem claim_C7 :
    parse_status (.dict [("status", Json.str "approved"), ("homework_name", Json.str "X")])
      = .ok "Изменился статус проверки работы \"X\". Работа проверена: ревьюеру всё понравилось. Ура!"
    ∧ (∀ kvs : List (String × Json),
        (kvs.lookup "status" = none ∨ kvs.lookup "homework_name" = none) →
        ∃ m, parse_status (.dict kvs) = .error (.keyError m))
    ∧ (∀ (kvs : List (String × Json)) (v : Json),
        kvs.lookup "status" = some v →
        (kvs.lookup "homework_name").isSome = true →
        verdictsContain v = .ok false →
        parse_status (.dict kvs)
          = .error (.valueError ("Получен неожиданный статус: " ++ v.pyStr))) := by
  refine ⟨rfl, ?_, ?_⟩
  · intro kvs h
    match hs : kvs.lookup "status" with
    | none =>
      exact ⟨"Нет ожидаемого ключа: status", by simp [parse_status, Json.pyContainsStr, hs]⟩
    | some v =>
      have hn : kvs.lookup "homework_name" = none := by
        rcases h with h | h
        · rw [hs] at h; exact absurd h (by simp)
        · exact h
      exact ⟨"Нет ожидаемого ключа: homework_name",
        by simp [parse_status, Json.pyContainsStr, hs, hn]⟩
  · intro kvs v hs hn hv
    simp [parse_status, Json.pyContainsStr, Json.pySub, hs, hn, hv]

/-- Witness for claim C7 at concrete records. -/
theorem claim_C7_witness :
    (∃ m, parse_status (.dict [("homework_name", Json.str "X")]) = .error (.keyError m))
    ∧ parse_status (.dict [("status", Json.str "unknown_code"), ("homework_name", Json.str "X")])
        = .error (.valueError ("Получен неожиданный статус: " ++ (Json.str "unknown_code").pyStr)) :=
  ⟨claim_C7.2.1 [("homework_name", Json.str "X")] (Or.inl rfl),
   claim_C7.2.2 [("status", Json.str "unknown_code"), ("homework_name", Json.str "X")]
     (Json.str "unknown_code") rfl rfl rfl⟩

/-- Claim C8: check_response raises TypeError (the ShapeError of the
spec) on any non-dict body, KeyError (MissingField) on any dict without
a homeworks key, TypeError (ShapeError) when the homeworks value is not
a list, and succeeds on every dict whose homeworks value is a list even
when current_date is absent, in particular on the dict with only an
empty homeworks list. -/
theorem claim_C8 :
    (∀ j : Json, j.isDict = false →
      check_response j = .error (.typeError ("Ожидался словарь, получен " ++ j.pyType)))
    ∧ (∀ kvs : List (String × Json), kvs.lookup "homeworks" = none →
      check_response (.dict kvs)
        = .error (.keyError "Отсутствуют ожидаемые ключи в ответе API: \"homeworks\""))
    ∧ (∀ (kvs : List (String × Json)) (hw : Json),
        kvs.lookup "homeworks" = some hw → hw.isList = false →
        check_response (.dict kvs)
          = .error (.typeError ("Ожидался список, получен: " ++ hw.pyType)))
    ∧ (∀ (kvs : List (String × Json)) (xs : List Json),
        kvs.lookup "homeworks" = some (Json.list xs) →
        check_response (.dict kvs) = .ok ())
    ∧ check_response (.dict [("homeworks", Json.list [])]) = .ok () := by
  refine ⟨?_, ?_, ?_, ?_, rfl⟩
  · intro j h
    cases j <;> first | rfl | simp [Json.isDict] at h
  · intro kvs h
    simp [check_response, h]
  · intro kvs hw h hl
    simp [check_response, h, hl]
  · intro kvs xs h
    simp [check_response, h, Json.isList]

/-- Witness for claim C8 at concrete bodies. -/
theorem claim_C8_witness :
    check_response (.list []) = .error (.typeError ("Ожидался словарь, получен " ++ (Json.list []).pyType))
    ∧ check_response (.dict [("homeworks", Json.str "x")])
        = .error (.typeError ("Ожидался список, получен: " ++ (Json.str "x").pyType))
    ∧ check_response (.dict [("homeworks", Json.list []), ("current_date", Json.int 1)]) = .ok () :=
  ⟨claim_C8.1 (.list []) rfl,
   claim_C8.2.2.1 [("homeworks", Json.str "x")] (Json.str "x") rfl rfl,
   claim_C8.2.2.2.1 [("homeworks", Json.list []), ("current_date", Json.int 1)] [] rfl⟩

theorem getLast?_snoc (l : List Event) (a : Event) :
    (l ++ [a]).getLast? = some a := by
  rw [List.getLast?_append_cons]
  rfl

theorem countSleeps_cons_logError (m : String) (l : List Event) :
    countSleeps (Event.logError m :: l) = countSleeps l := by
  simp [countSleeps, List.filter_cons]

theorem tryBody_ok_sleep_free {token : String} {inp : CycleInput} {st st2 : BotState}
    {evs : List Event} (h : tryBody token inp st = .ok (st2, evs)) :
    countSleeps evs = 0 := by
  unfold tryBody at h
  repeat' split at h
  all_goals cases h
  all_goals first
    | rfl
    | exact countSleeps_send_message _ _

theorem cycle_countSleeps (token : String) (inp : CycleInput) (st : BotState) :
    countSleeps (cycle token inp st).2 = 1 := by
  unfold cycle
  split
  case _ st2 evs h =>
    rw [countSleeps_append, tryBody_ok_sleep_free h]
    rfl
  case _ e h =>
    split <;>
    · dsimp only
      rw [countSleeps_append, countSleeps_cons_logError]
      split
      · rw [countSleeps_send_message]
        rfl
      · rfl

/-- Claim C9: every cycle, whether it succeeds, ends early on empty
homeworks, or raises any modelled error, ends with the fixed sleep as
its final event (the finally clause), contains exactly one sleep, and
the loop is a total function of its inputs: running any input list
executes exactly one sleep per cycle and processes every cycle. -/
theorem claim_C9 :
    (∀ (token : String) (inp : CycleInput) (st : BotState),
      ((cycle token inp st).2).getLast? = some (Event.sleep RETRY_PERIOD)
      ∧ countSleeps (cycle token inp st).2 = 1)
    ∧ (∀ (token : String) (st : BotState) (inps : List CycleInput),
      countSleeps (run token st inps).2 = inps.length) := by
  constructor
  · intro token inp st
    refine ⟨?_, cycle_countSleeps token inp st⟩
    unfold cycle
    split
    · exact getLast?_snoc _ _
    · split <;>
        · dsimp only
          exact getLast?_snoc _ _
  · intro token st inps
    induction inps generalizing st with
    | nil => rfl
    | cons inp rest ih =>
      have hc := cycle_countSleeps token inp st
      simp only [run]
      rcases hcyc : cycle token inp st with ⟨st2, evs⟩
      rcases hrun : run token st2 rest with ⟨st3, evs2⟩
      have hr := ih st2
      rw [hcyc] at hc
      rw [hrun] at hr
      simp only [countSleeps_append, List.length_cons]
      simp only at hc hr
      omega

/-- Claim C10: in get_api_answer, a 200 body whose code entry is the
string UnknownError but which lacks an error entry makes the
error-reporting branch itself raise a bare KeyError from subscripting
response_dict[error]; when the error entry is a string, or a dict
without an inner error key, the same subscript chain raises a bare
TypeError or KeyError — in each case an untyped lookup failure instead
of the intended TypeError carrying API_ERROR_MESSAGE. -/
theorem claim_C10 :
    (∀ (token : String) (ts : Json) (kvs : List (String × Json)),
      kvs.lookup "code" = some (Json.str "UnknownError") →
      kvs.lookup "error" = none →
      get_api_answer token ts (.response 200 (.dict kvs)) = .error (.keyError "error"))
    ∧ (∀ (token : String) (ts : Json) (kvs : List (String × Json)) (s : String),
      kvs.lookup "code" = some (Json.str "UnknownError") →
      kvs.lookup "error" = some (Json.str s) →
      get_api_answer token ts (.response 200 (.dict kvs))
        = .error (.typeError "string indices must be integers"))
    ∧ (∀ (token : String) (ts : Json) (kvs kvs2 : List (String × Json)),
      kvs.lookup "code" = some (Json.str "UnknownError") →
      kvs.lookup "error" = some (Json.dict kvs2) →
      kvs2.lookup "error" = none →
      get_api_answer token ts (.response 200 (.dict kvs)) = .error (.keyError "error")) := by
  have hu : ("UnknownError".isEmpty) = false := by decide
  refine ⟨?_, ?_, ?_⟩
  · intro token ts kvs h1 h2
    simp [get_api_answer, Json.pyGet, Json.pySub, h1, h2, Json.truthy, Json.eqStr, hu]
  · intro token ts kvs s h1 h2
    simp [get_api_answer, Json.pyGet, Json.pySub, h1, h2, Json.truthy, Json.eqStr, hu]
  · intro token ts kvs kvs2 h1 h2 h3
    simp [get_api_answer, Json.pyGet, Json.pySub, h1, h2, h3, Json.truthy, Json.eqStr, hu]

/-- Witness for claim C10 at concrete bodies. -/
theorem claim_C10_witness :
    get_api_answer "t" (Json.int 0)
      (.response 200 (.dict [("code", Json.str "UnknownError")]))
      = .error (.keyError "error")
    ∧ get_api_answer "t" (Json.int 0)
      (.response 200 (.dict [("code", Json.str "UnknownError"), ("error", Json.str "x")]))
      = .error (.typeError "string indices must be integers")
    ∧ get_api_answer "t" (Json.int 0)
      (.response 200 (.dict [("code", Json.str "UnknownError"), ("error", Json.dict [])]))
      = .error (.keyError "error") :=
  ⟨claim_C10.1 "t" (Json.int 0) [("code", Json.str "UnknownError")] rfl rfl,
   claim_C10.2.1 "t" (Json.int 0) [("code", Json.str "UnknownError"), ("error", Json.str "x")] "x" rfl rfl,
   claim_C10.2.2 "t" (Json.int 0) [("code", Json.str "UnknownError"), ("error", Json.dict [])] [] rfl rfl rfl⟩

/-- Counterexample to claim C1: a cycle whose fetch and validation
succeed on a body carrying homeworks = [] and current_date = 100 leaves
the cursor at its old value 0 — the code advances the timestamp only
inside the branch that sends a fresh notification, so an
empty-homeworks cycle does not advance it even though current_date is
present. -/
theorem claim_C1_counterexample :
    get_api_answer "t" (Json.int 0)
      (.response 200 (.dict [("homeworks", Json.list []), ("current_date", Json.int 100)]))
      = .ok (.dict [("homeworks", Json.list []), ("current_date", Json.int 100)])
    ∧ check_response (.dict [("homeworks", Json.list []), ("current_date", Json.int 100)])
      = .ok ()
    ∧ (cycle "t"
        ⟨.response 200 (.dict [("homeworks", Json.list []), ("current_date", Json.int 100)]), none⟩
        ⟨none, Json.int 0⟩).1.timestamp = Json.int 0
    ∧ Json.int 0 ≠ Json.int 100 := by
  refine ⟨rfl, rfl, rfl, by simp⟩

/-- Claim C1 as amended: the cursor is advanced to the response's
current_date (falling back to the old cursor when that key is absent)
only in a cycle that attempts to send a fresh status notification; in
every cycle whose try block raises, and in every error-free cycle that
attempts no send (empty homeworks, or a duplicate-suppressed message),
the cursor used for the next fetch is exactly the previous one. -/
theorem claim_C1_amended :
    (∀ (token : String) (inp : CycleInput) (st : BotState) (e : PyError),
      tryBody token inp st = .error e →
      (cycle token inp st).1.timestamp = st.timestamp)
    ∧ (∀ (token : String) (inp : CycleInput) (st st2 : BotState) (evs : List Event),
      tryBody token inp st = .ok (st2, evs) → countAllSends evs = 0 →
      st2.timestamp = st.timestamp)
    ∧ (∀ (token : String) (inp : CycleInput) (st st2 : BotState) (evs : List Event),
      tryBody token inp st = .ok (st2, evs) → countAllSends evs ≠ 0 →
      ∃ kvs : List (String × Json), inp.net = .response 200 (.dict kvs)
        ∧ st2.timestamp = (kvs.lookup "current_date").getD st.timestamp) := by
  refine ⟨?_, ?_, ?_⟩
  · intro token inp st e h
    unfold cycle
    rw [h]
    dsimp only
    split <;> rfl
  · intro token inp st st2 evs h hsend
    unfold tryBody at h
    repeat' split at h
    all_goals cases h
    all_goals first
      | rfl
      | (rw [countAllSends_send_message] at hsend
         exact absurd hsend one_ne_zero)
  · intro token inp st st2 evs h hsend
    match hga : get_api_answer token st.timestamp inp.net with
    | .error e =>
      unfold tryBody at h
      rw [hga] at h
      cases h
    | .ok response =>
      obtain ⟨kvs, hnet, hresp⟩ := get_api_answer_ok_inv hga
      subst hresp
      refine ⟨kvs, hnet, ?_⟩
      unfold tryBody at h
      rw [hga] at h
      dsimp only [Json.pyGet, Json.pyGetD, Json.pySub] at h
      repeat' split at h
      all_goals cases h
      all_goals first
        | rfl
        | (exfalso
           exact absurd rfl hsend)

/-- Witness for claim C1 as amended, at one erroring cycle, one
empty-homeworks cycle, and one fresh-notification cycle. -/
theorem claim_C1_amended_witness :
    (cycle "t" ⟨.transportError "x", none⟩ ⟨none, Json.int 5⟩).1.timestamp = Json.int 5
    ∧ ({ last_message := none, timestamp := Json.int 5 } : BotState).timestamp
        = ({ last_message := none, timestamp := Json.int 5 } : BotState).timestamp
    ∧ ∃ kvs : List (String × Json),
        HttpResult.response 200 (.dict [("homeworks", Json.list [.dict [("status", Json.str "approved"), ("homework_name", Json.str "Y")]]), ("current_date", Json.int 77)])
          = .response 200 (.dict kvs)
        ∧ ({ last_message := some (STATUS_CHANGE_MESSAGE "Y" "Работа проверена: ревьюеру всё понравилось. Ура!"), timestamp := Json.int 77 } : BotState).timestamp
          = (kvs.lookup "current_date").getD (Json.int 5) := by
  refine ⟨?_, ?_, ?_⟩
  · exact claim_C1_amended.1 "t" ⟨.transportError "x", none⟩ ⟨none, Json.int 5⟩
      (.apiError (API_ERROR_MESSAGE "t" "x" "unknown" (Json.int 5))) rfl
  · exact claim_C1_amended.2.1 "t"
      ⟨.response 200 (.dict [("homeworks", Json.list [])]), none⟩
      ⟨none, Json.int 5⟩ ⟨none, Json.int 5⟩
      [Event.logDebug "Отсутствие в ответе новых статусов."] rfl rfl
  · exact claim_C1_amended.2.2 "t"
      ⟨.response 200 (.dict [("homeworks", Json.list [.dict [("status", Json.str "approved"), ("homework_name", Json.str "Y")]]), ("current_date", Json.int 77)]), none⟩
      ⟨none, Json.int 5⟩
      ⟨some (STATUS_CHANGE_MESSAGE "Y" "Работа проверена: ревьюеру всё понравилось. Ура!"), Json.int 77⟩
      (send_message (STATUS_CHANGE_MESSAGE "Y" "Работа проверена: ревьюеру всё понравилось. Ура!") none)
      rfl (by decide)

/-- A homework record with status approved and homework_name X. -/
def approvedRecordX : Json :=
  .dict [("status", Json.str "approved"), ("homework_name", Json.str "X")]

/-- A valid response body whose first homework is approvedRecordX. -/
def approvedBodyX : Json :=
  .dict [("homeworks", Json.list [approvedRecordX]), ("current_date", Json.int 100)]

/-- The notification text parse_status produces for approvedRecordX. -/
def approvedMsgX : String :=
  STATUS_CHANGE_MESSAGE "X" "Работа проверена: ревьюеру всё понравилось. Ура!"

theorem cycle_approved_fresh (token : String) (f : Option String)
    (lm : Option String) (ts : Json) (h : lm ≠ some approvedMsgX) :
    cycle token ⟨.response 200 approvedBodyX, f⟩ ⟨lm, ts⟩
      = (⟨some approvedMsgX, Json.int 100⟩,
         send_message approvedMsgX f ++ [Event.sleep RETRY_PERIOD]) := by
  have ht : tryBody token ⟨.response 200 approvedBodyX, f⟩ ⟨lm, ts⟩
      = if lm ≠ some approvedMsgX
        then .ok (⟨some approvedMsgX, Json.int 100⟩, send_message approvedMsgX f)
        else .ok (⟨lm, ts⟩, []) := rfl
  unfold cycle
  rw [ht, if_pos h]

theorem cycle_approved_dup (token : String) (f : Option String) (ts : Json) :
    cycle token ⟨.response 200 approvedBodyX, f⟩ ⟨some approvedMsgX, ts⟩
      = (⟨some approvedMsgX, ts⟩, [Event.sleep RETRY_PERIOD]) := rfl

/-- Counterexample to claim C2: the first cycle extracts text A and the
transport fails, yet the loop still assigns last_message = A right
after the failed send_message call (send_message swallows the failure),
so the second cycle producing the same text A is suppressed as a
duplicate: one outbound attempt in total, not the two the claim
requires. -/
theorem claim_C2_counterexample :
    countSends (run "t" ⟨none, Json.int 0⟩
        [⟨.response 200 approvedBodyX, some "boom"⟩,
         ⟨.response 200 approvedBodyX, none⟩]).2 approvedMsgX = 1
    ∧ ¬ countSends (run "t" ⟨none, Json.int 0⟩
        [⟨.response 200 approvedBodyX, some "boom"⟩,
         ⟨.response 200 approvedBodyX, none⟩]).2 approvedMsgX = 2 := by
  refine ⟨rfl, by decide⟩

/-- Claim C2 as amended: when the transport fails on a fresh text, the
failure is logged and swallowed inside send_message, but the loop still
records the text as last_message, so the text is treated as already
sent: a second cycle producing the identical text performs no further
outbound attempt — exactly one attempt in total, and no retry occurs. -/
theorem claim_C2_amended (token err : String) (ts : Json)
    (lm : Option String) (h : lm ≠ some approvedMsgX) :
    countSends (run token ⟨lm, ts⟩
        [⟨.response 200 approvedBodyX, some err⟩,
         ⟨.response 200 approvedBodyX, none⟩]).2 approvedMsgX = 1
    ∧ (run token ⟨lm, ts⟩
        [⟨.response 200 approvedBodyX, some err⟩,
         ⟨.response 200 approvedBodyX, none⟩]).1.last_message = some approvedMsgX := by
  have h1 := cycle_approved_fresh token (some err) lm ts h
  have h2 := cycle_approved_dup token none (Json.int 100)
  simp only [run, h1, h2]
  constructor
  · simp [countSends, send_message, List.filter_append, List.filter_cons]
  · trivial

/-- Witness for claim C2 as amended at a fresh start state. -/
theorem claim_C2_amended_witness :
    countSends (run "t" ⟨none, Json.int 7⟩
        [⟨.response 200 approvedBodyX, some "err"⟩,
         ⟨.response 200 approvedBodyX, none⟩]).2 approvedMsgX = 1
    ∧ (run "t" ⟨none, Json.int 7⟩
        [⟨.response 200 approvedBodyX, some "err"⟩,
         ⟨.response 200 approvedBodyX, none⟩]).1.last_message = some approvedMsgX :=
  claim_C2_amended "t" "err" (Json.int 7) none (by simp)

theorem countAllSends_four (a b c : String) (bk : Bool) (n : Nat) :
    countAllSends [Event.logError a, Event.sendAttempt b bk,
      Event.logDebug c, Event.sleep n] = 1 := rfl

theorem cycle_transport_err (token msg : String) (ts : Json) :
    cycle token ⟨.transportError msg, none⟩ ⟨none, ts⟩
      = (⟨none, ts⟩,
         [Event.logError (API_ERROR_MESSAGE token msg "unknown" ts),
          Event.sendAttempt (API_ERROR_MESSAGE token msg "unknown" ts) true,
          Event.logDebug (BOT_MESSAGE (API_ERROR_MESSAGE token msg "unknown" ts)),
          Event.sleep RETRY_PERIOD]) := rfl

set_option maxRecDepth 16384 in
/-- Counterexample to claim C3: two consecutive cycles raising the same
transport error produce two sends of the identical report text, because
the except branch never assigns last_message, so the second identical
report is not suppressed. -/
theorem claim_C3_counterexample :
    countSends (run "t" ⟨none, Json.int 0⟩
        (List.replicate 2 ⟨.transportError "boom", none⟩)).2
        (API_ERROR_MESSAGE "t" "boom" "unknown" (Json.int 0)) = 2
    ∧ ¬ countSends (run "t" ⟨none, Json.int 0⟩
        (List.replicate 2 ⟨.transportError "boom", none⟩)).2
        (API_ERROR_MESSAGE "t" "boom" "unknown" (Json.int 0)) = 1 := by
  refine ⟨by decide, by decide⟩

/-- Claim C3 as amended: an error report is passed to the notifier only
when its text differs from last_message, but last_message is never
updated by the except branches (the whole loop state is unchanged on
error), so the comparison is against the last successful status
notification, not the last error report: a repeating identical error is
re-sent every cycle — n consecutive cycles with the same transport
error from a fresh state produce n outbound attempts, not one. -/
theorem claim_C3_amended :
    (∀ (token : String) (inp : CycleInput) (st : BotState) (e : PyError),
      tryBody token inp st = .error e → (cycle token inp st).1 = st)
    ∧ (∀ (token msg : String) (ts : Json) (n : Nat),
      countAllSends (run token ⟨none, ts⟩
        (List.replicate n ⟨.transportError msg, none⟩)).2 = n) := by
  constructor
  · intro token inp st e h
    unfold cycle
    rw [h]
    dsimp only
    split <;> rfl
  · intro token msg ts n
    induction n with
    | zero => rfl
    | succ k ih =>
      rw [List.replicate_succ]
      simp only [run, cycle_transport_err]
      rcases hr : run token ⟨none, ts⟩ (List.replicate k ⟨.transportError msg, none⟩)
        with ⟨st3, evs2⟩
      rw [hr] at ih
      dsimp only at ih ⊢
      rw [countAllSends_append, countAllSends_four]
      omega

/-- Witness for claim C3 as amended at one erroring cycle. -/
theorem claim_C3_amended_witness :
    (cycle "t" ⟨.transportError "x", none⟩ ⟨some "prev", Json.int 3⟩).1
      = ({ last_message := some "prev", timestamp := Json.int 3 } : BotState)
    ∧ countAllSends (run "t" ⟨none, Json.int 3⟩
        (List.replicate 4 ⟨.transportError "x", none⟩)).2 = 4 :=
  ⟨claim_C3_amended.1 "t" ⟨.transportError "x", none⟩ ⟨some "prev", Json.int 3⟩
      (.apiError (API_ERROR_MESSAGE "t" "x" "unknown" (Json.int 3))) rfl,
   claim_C3_amended.2 "t" "x" (Json.int 3) 4⟩

/-- Counterexample to claim C4: a 404 response whose body carries the
foreign key code raises HTTPError (the BadStatus error) — the
status-code check runs first, not after the body check; and a 200 body
with an extra key foo outside the allowed set is returned unchanged
rather than raising any error — only the keys code and error are
inspected. -/
theorem claim_C4_counterexample :
    get_api_answer "t" (Json.int 0) (.response 404 (.dict [("code", Json.str "x")]))
      = .error (.httpError (API_ERROR_MESSAGE "t" "HTTPError" "404" (Json.int 0)))
    ∧ get_api_answer "t" (Json.int 0)
        (.response 200 (.dict [("homeworks", Json.list []), ("current_date", Json.int 1),
          ("foo", Json.int 1)]))
      = .ok (.dict [("homeworks", Json.list []), ("current_date", Json.int 1),
          ("foo", Json.int 1)]) :=
  ⟨rfl, rfl⟩

/-- Claim C4 as amended: get_api_answer checks the HTTP status first —
every non-200 response raises HTTPError built from API_ERROR_MESSAGE
regardless of its body; for a 200 dict body, only the keys code and
error are inspected: when both are absent or falsy the body is returned
unchanged (other extra keys are ignored), and when either is truthy the
call never returns a body (it raises one of the semantic or lookup
errors of the reporting branch). -/
theorem claim_C4_amended :
    (∀ (token : String) (ts : Json) (status : Nat) (body : Json), status ≠ 200 →
      get_api_answer token ts (.response status body)
        = .error (.httpError (API_ERROR_MESSAGE token "HTTPError" (toString status) ts)))
    ∧ (∀ (token : String) (ts : Json) (kvs : List (String × Json)),
      ((kvs.lookup "code").getD Json.null).truthy = false →
      ((kvs.lookup "error").getD Json.null).truthy = false →
      get_api_answer token ts (.response 200 (.dict kvs)) = .ok (.dict kvs))
    ∧ (∀ (token : String) (ts : Json) (kvs : List (String × Json)),
      (((kvs.lookup "code").getD Json.null).truthy = true
        ∨ ((kvs.lookup "error").getD Json.null).truthy = true) →
      ∀ v : Json, get_api_answer token ts (.response 200 (.dict kvs)) ≠ .ok v) := by
  refine ⟨?_, ?_, ?_⟩
  · intro token ts status body h
    simp only [get_api_answer]
    rw [if_pos h]
  · intro token ts kvs h1 h2
    simp [get_api_answer, Json.pyGet, h1, h2]
  · intro token ts kvs h v hok
    have hcond : (((kvs.lookup "code").getD Json.null).truthy
        || ((kvs.lookup "error").getD Json.null).truthy) = true := by
      rcases h with h | h <;> simp [h]
    simp only [get_api_answer, Json.pyGet] at hok
    rw [if_neg (by simp)] at hok
    rw [if_pos hcond] at hok
    split at hok <;> (try split at hok) <;> (try split at hok) <;> simp_all

/-- Witness for claim C4 as amended at concrete responses. -/
theorem claim_C4_amended_witness :
    get_api_answer "t" (Json.int 0) (.response 503 (.dict []))
      = .error (.httpError (API_ERROR_MESSAGE "t" "HTTPError" (toString 503) (Json.int 0)))
    ∧ get_api_answer "t" (Json.int 0)
        (.response 200 (.dict [("homeworks", Json.list []), ("bar", Json.str "y")]))
      = .ok (.dict [("homeworks", Json.list []), ("bar", Json.str "y")])
    ∧ get_api_answer "t" (Json.int 0)
        (.response 200 (.dict [("error", Json.str "oops")])) ≠ .ok Json.null :=
  ⟨claim_C4_amended.1 "t" (Json.int 0) 503 (.dict []) (by decide),
   claim_C4_amended.2.1 "t" (Json.int 0)
     [("homeworks", Json.list []), ("bar", Json.str "y")] rfl rfl,
   claim_C4_amended.2.2 "t" (Json.int 0) [("error", Json.str "oops")]
     (Or.inr rfl) Json.null⟩

/-- Counterexample to claim C5: with PRACTICUM_TOKEN unset, startup
reports the missing variable and stops before the loop, but it does so
by raising an uncaught ValueError out of main — the process dies with a
traceback and an error exit status, not the non-error-looking exit the
claim states. -/
theorem claim_C5_counterexample :
    (startup ⟨none, some "t", some "c"⟩ 0).1
      = [Event.logCritical "Отсутствует обязательная переменная окружения: PRACTICUM_TOKEN.",
         Event.logCritical "Программа принудительно остановлена."]
    ∧ (startup ⟨none, some "t", some "c"⟩ 0).2
      = .uncaughtException (.valueError "Отсутствуют обязательные переменные окружения")
    ∧ (startup ⟨none, some "t", some "c"⟩ 0).2 ≠ StartupOutcome.cleanExit :=
  ⟨rfl, rfl, fun h => StartupOutcome.noConfusion h⟩

/-- Claim C5 as amended: for every credential triple with at least one
missing or empty value, startup logs a critical line naming each
missing variable and terminates before entering the loop by raising an
uncaught ValueError (an error exit status, not a clean one); for every
triple with all three values non-empty, startup proceeds into the loop
with last_message = None and the cursor set to the current time. -/
theorem claim_C5_amended :
    (∀ (c : Credentials) (now : Int),
      (tokenPairs c).any (fun tv => falsyStr tv.2) = true →
      ∃ logs, startup c now
          = (logs, .uncaughtException (.valueError "Отсутствуют обязательные переменные окружения"))
        ∧ ∀ tv ∈ tokenPairs c, falsyStr tv.2 = true →
            Event.logCritical
              ("Отсутствует обязательная переменная окружения: " ++ tv.1 ++ ".") ∈ logs)
    ∧ (∀ (c : Credentials) (now : Int),
      (tokenPairs c).any (fun tv => falsyStr tv.2) = false →
      startup c now = ([], .enterLoop ⟨none, Json.int now⟩)) := by
  constructor
  · intro c now h
    obtain ⟨p, t, ch⟩ := c
    cases hp : falsyStr p <;> cases ht : falsyStr t <;> cases hc : falsyStr ch <;>
      simp_all [startup, check_tokens, tokenPairs]
  · intro c now h
    obtain ⟨p, t, ch⟩ := c
    cases hp : falsyStr p <;> cases ht : falsyStr t <;> cases hc : falsyStr ch <;>
      simp_all [startup, check_tokens, tokenPairs]

/-- Witness for claim C5 as amended at one missing and one complete
triple. -/
theorem claim_C5_amended_witness :
    (∃ logs, startup ⟨none, some "t", some "c"⟩ 9
        = (logs, .uncaughtException (.valueError "Отсутствуют обязательные переменные окружения"))
      ∧ ∀ tv ∈ tokenPairs ⟨none, some "t", some "c"⟩, falsyStr tv.2 = true →
          Event.logCritical
            ("Отсутствует обязательная переменная окружения: " ++ tv.1 ++ ".") ∈ logs)
    ∧ startup ⟨some "a", some "b", some "c"⟩ 9
      = ([], .enterLoop ⟨none, Json.int 9⟩) :=
  ⟨claim_C5_amended.1 ⟨none, some "t", some "c"⟩ 9 rfl,
   claim_C5_amended.2 ⟨some "a", some "b", some "c"⟩ 9 rfl⟩

/-- The text that one loop cycle logs and offers to the notifier for an
escaped exception e: the bare str(e) when e is in the caught tuple, the
prefixed diagnostic only in the generic except-Exception branch. -/
def notifReport (e : PyError) : String :=
  if isCaughtTyped e then pyStrErr e
  else "Сбой в работе программы: " ++ pyStrErr e

/-- Counterexample to claim C6: a cycle whose validator raises TypeError
(homeworks is a string) logs and sends the bare exception text, which
does not carry the prefix Сбой в работе программы: — the first except
branch forwards str(e) unchanged. -/
theorem claim_C6_counterexample :
    (cycle "t" ⟨.response 200 (.dict [("homeworks", Json.str "x")]), none⟩
        ⟨none, Json.int 0⟩).2
      = [Event.logError "Ожидался список, получен: <class \x27str\x27>",
         Event.sendAttempt "Ожидался список, получен: <class \x27str\x27>" true,
         Event.logDebug (BOT_MESSAGE "Ожидался список, получен: <class \x27str\x27>"),
         Event.sleep RETRY_PERIOD]
    ∧ ("Сбой в работе программы: ".data).isPrefixOf
        "Ожидался список, получен: <class \x27str\x27>".data = false :=
  ⟨rfl, by decide⟩

/-- Claim C6 as amended: an exception escaping the try block is logged
and offered to the notifier as notifReport e: for the caught exception
classes (ApiError, AuthenticationError, HTTPError, KeyError,
RequestException, TypeError, ValueError) this is the bare str(e) with
no prefix added — client-side errors happen to start with Сбой в работе
программы: only because API_ERROR_MESSAGE itself begins with that
prefix — while only exceptions outside the tuple are wrapped with the
prefix by the generic branch. -/
theorem claim_C6_amended :
    (∀ (token : String) (inp : CycleInput) (st : BotState) (e : PyError),
      tryBody token inp st = .error e →
      ∃ rest, (cycle token inp st).2 = Event.logError (notifReport e) :: rest
        ∧ (st.last_message ≠ some (notifReport e) →
            Event.sendAttempt (notifReport e) inp.sendFail.isNone
              ∈ (cycle token inp st).2))
    ∧ (∀ (token error status_code : String) (ts : Json),
      ∃ tail, API_ERROR_MESSAGE token error status_code ts
        = "Сбой в работе программы: " ++ tail) := by
  constructor
  · intro token inp st e h
    unfold cycle
    rw [h]
    dsimp only
    by_cases hct : isCaughtTyped e = true
    · rw [if_pos hct]
      simp only [notifReport, if_pos hct]
      refine ⟨(if st.last_message ≠ some (pyStrErr e) then
          send_message (pyStrErr e) inp.sendFail else []) ++ [Event.sleep RETRY_PERIOD],
        by rw [List.cons_append], ?_⟩
      intro hne
      rw [if_pos hne]
      cases hf : inp.sendFail <;> simp [send_message, hf]
    · rw [if_neg hct]
      simp only [notifReport, if_neg hct]
      refine ⟨(if st.last_message ≠ some ("Сбой в работе программы: " ++ pyStrErr e) then
          send_message ("Сбой в работе программы: " ++ pyStrErr e) inp.sendFail else [])
          ++ [Event.sleep RETRY_PERIOD],
        by rw [List.cons_append], ?_⟩
      intro hne
      rw [if_pos hne]
      cases hf : inp.sendFail <;> simp [send_message, hf]
  · intro token error status_code ts
    refine ⟨error ++ ". Эндпоинт: " ++ ENDPOINT ++ ". Код ответа API: " ++ status_code
      ++ ". Headers: " ++ headersRepr token ++ ", params: \"from_date\": "
      ++ ts.pyStr ++ ".", ?_⟩
    simp [API_ERROR_MESSAGE, String.append_assoc]

/-- Witness for claim C6 as amended at a transport-error cycle. -/
theorem claim_C6_amended_witness :
    (∃ rest, (cycle "t" ⟨.transportError "x", none⟩ ⟨none, Json.int 1⟩).2
        = Event.logError (notifReport (.apiError (API_ERROR_MESSAGE "t" "x" "unknown" (Json.int 1)))) :: rest
      ∧ (((⟨none, Json.int 1⟩ : BotState).last_message
            ≠ some (notifReport (.apiError (API_ERROR_MESSAGE "t" "x" "unknown" (Json.int 1)))) →
          Event.sendAttempt (notifReport (.apiError (API_ERROR_MESSAGE "t" "x" "unknown" (Json.int 1))))
            (Option.isNone (none : Option String))
            ∈ (cycle "t" ⟨.transportError "x", none⟩ ⟨none, Json.int 1⟩).2)))
    ∧ (∃ tail, API_ERROR_MESSAGE "t" "x" "unknown" (Json.int 1)
        = "Сбой в работе программы: " ++ tail) :=
  ⟨claim_C6_amended.1 "t" ⟨.transportError "x", none⟩ ⟨none, Json.int 1⟩
      (.apiError (API_ERROR_MESSAGE "t" "x" "unknown" (Json.int 1))) rfl,
   claim_C6_amended.2 "t" "x" "unknown" (Json.int 1)⟩

end HomeworkBot
